import Mathlib

/-!
Shallow embedding of the TextBox widget from src/src/widgets/text_box.rs
(kayak_ui). Strings are modelled as lists of Unicode code points (Nat);
Rust byte-level operations on String are modelled through the UTF-8 byte
length of each code point. Fallible code (code that can panic) returns
Option, with none standing for a panic.
-/

namespace TextBoxSpec

/-- Rust is_backspace from text_box.rs line 226: c == 0x08 or c == 0x7F. -/
def is_backspace (c : Nat) : Bool :=
  c == 0x08 || c == 0x7F

/-- Rust char.is_control: true exactly for general category Cc, i.e.
U+0000..U+001F and U+007F..U+009F. -/
def is_control (c : Nat) : Bool :=
  decide (c ≤ 0x1F) || (decide (0x7F ≤ c) && decide (c ≤ 0x9F))

/-- Number of bytes of the UTF-8 encoding of a code point. -/
def utf8Len (c : Nat) : Nat :=
  if c < 0x80 then 1 else if c < 0x800 then 2 else if c < 0x10000 then 3 else 4

/-- Rust String.len: the byte length of the UTF-8 encoding. -/
def byteLen (s : List Nat) : Nat :=
  (s.map utf8Len).sum

/-- Rust String.truncate modelled on the code-point list: newLen is a byte
count; if newLen is at least the byte length the call is a no-op, otherwise
the string is cut at newLen bytes, and the call panics (none) when newLen
does not fall on a character boundary. -/
def rustTruncate : List Nat → Nat → Option (List Nat)
  | _, 0 => some []
  | [], _ + 1 => some []
  | c :: rest, n + 1 =>
    if utf8Len c ≤ n + 1 then
      (rustTruncate rest (n + 1 - utf8Len c)).map (fun t => c :: t)
    else
      none

/-- The CharInput arm of the TextBox on_event closure (text_box.rs lines
121-139). Arguments: the current focus flag, whether an on_change callback
is registered and its write guard can be acquired, the current value and
the incoming character. Returns none when the Rust code panics, otherwise
the new value together with the list of ChangeEvent values handed to
on_change. -/
def onCharInput (focused : Bool) (onChangeAvailable : Bool) (value : List Nat)
    (c : Nat) : Option (List Nat × List (List Nat)) :=
  if !focused then
    some (value, [])
  else
    let newValue? : Option (List Nat) :=
      if is_backspace c then
        if !value.isEmpty then rustTruncate value (byteLen value - 1)
        else some value
      else if !(is_control c) then
        some (value ++ [c])
      else
        some value
    match newValue? with
    | none => none
    | some v => some (v, if onChangeAvailable then [v] else [])

/-- Event kinds delivered to the widget handler (EventType in the source);
other covers every event type outside the matched set. -/
inductive EventType where
  | charInput (c : Nat)
  | focus
  | blur
  | other

/-- The state the on_event closure reads and writes: the captured
current_value string and the has_focus state cell. -/
structure WidgetState where
  value : List Nat
  focused : Bool
deriving DecidableEq

/-- The whole on_event closure (text_box.rs lines 120-143): CharInput edits
the value, Focus and Blur set the focus cell, anything else is ignored.
Returns none when the Rust code panics. -/
def on_event (onChangeAvailable : Bool) (s : WidgetState) :
    EventType → Option (WidgetState × List (List Nat))
  | EventType.charInput c =>
    match onCharInput s.focused onChangeAvailable s.value c with
    | none => none
    | some (v, es) => some (⟨v, s.focused⟩, es)
  | EventType.focus => some (⟨s.value, true⟩, [])
  | EventType.blur => some (⟨s.value, false⟩, [])
  | EventType.other => some (s, [])

/-- Delivering a list of events in arrival order, collecting every
ChangeEvent value emitted along the way. -/
def processEvents (onChangeAvailable : Bool) (s : WidgetState) :
    List EventType → Option (WidgetState × List (List Nat))
  | [] => some (s, [])
  | e :: rest =>
    match on_event onChangeAvailable s e with
    | none => none
    | some (s2, es) =>
      match processEvents onChangeAvailable s2 rest with
      | none => none
      | some (s3, es2) => some (s3, es ++ es2)

/-- RGBA color (Color::new arguments), exact rationals in place of f32. -/
structure Color where
  r : ℚ
  g : ℚ
  b : ℚ
  a : ℚ
deriving DecidableEq

/-- The layout units used by the widget (kayak_core styles::Units). -/
inductive Units where
  | Pixels (v : ℚ)
  | Percentage (v : ℚ)
  | Stretch (v : ℚ)
  | Auto
deriving DecidableEq

/-- Render commands used by the widget. -/
inductive RenderCommand where
  | Empty
  | Layout
  | Clip
  | Quad
  | Text
deriving DecidableEq

/-- kayak_core styles::PositionType. -/
inductive PositionType where
  | SelfDirected
  | ParentDirected
deriving DecidableEq

/-- Cursor icons used by the widget. -/
inductive CursorIcon where
  | Default
  | Text
deriving DecidableEq

/-- A style property: unset (Default), inherited, or an explicit value. -/
inductive StyleProp (α : Type) where
  | Default
  | Inherit
  | Value (v : α)
deriving DecidableEq

/-- The Style fields this widget touches (a projection of kayak_core
styles::Style onto the fields read or written in text_box.rs). -/
structure Style where
  background_color : StyleProp Color
  border_radius : StyleProp (ℚ × ℚ × ℚ × ℚ)
  bottom : StyleProp Units
  color : StyleProp Color
  cursor : StyleProp CursorIcon
  height : StyleProp Units
  left : StyleProp Units
  padding_left : StyleProp Units
  padding_right : StyleProp Units
  position_type : StyleProp PositionType
  render_command : StyleProp RenderCommand
  top : StyleProp Units
  width : StyleProp Units
deriving DecidableEq

/-- Style::default(): every field unset. -/
def Style.default : Style :=
  ⟨StyleProp.Default, StyleProp.Default, StyleProp.Default, StyleProp.Default,
   StyleProp.Default, StyleProp.Default, StyleProp.Default, StyleProp.Default,
   StyleProp.Default, StyleProp.Default, StyleProp.Default, StyleProp.Default,
   StyleProp.Default⟩

/-- The placeholder-style text color block built at text_box.rs lines
177-180: Style default except color set to Color::new(0.5, 0.5, 0.5, 1.0). -/
def dimStyle : Style :=
  { Style.default with color := StyleProp.Value ⟨0.5, 0.5, 0.5, 1⟩ }

/-- background_styles from text_box.rs lines 105-112. -/
def background_styles : Style :=
  { Style.default with
    background_color := StyleProp.Value ⟨0.176, 0.196, 0.215, 1⟩
    border_radius := StyleProp.Value (5, 5, 5, 5)
    height := StyleProp.Value (Units.Pixels 26)
    padding_left := StyleProp.Value (Units.Pixels 5)
    padding_right := StyleProp.Value (Units.Pixels 5) }

/-- cursor_styles from text_box.rs lines 185-195, a function of the
measured layout width layout_size.0. -/
def cursor_styles (layoutWidth : ℚ) : Style :=
  { Style.default with
    background_color := StyleProp.Value ⟨0, 1, 1, 1⟩
    position_type := StyleProp.Value PositionType.SelfDirected
    render_command := StyleProp.Value RenderCommand.Quad
    left := StyleProp.Value (Units.Pixels (layoutWidth + 5))
    top := StyleProp.Value (Units.Pixels 3)
    bottom := StyleProp.Value (Units.Pixels 3)
    width := StyleProp.Value (Units.Pixels 1)
    height := StyleProp.Value (Units.Stretch 1) }

/-- text_styles from text_box.rs lines 176-183: the dim color block when
value.is_empty() or (has_focus and value.is_empty()), default otherwise. -/
def text_styles (value : List Nat) (focused : Bool) : Style :=
  if value.isEmpty || (focused && value.isEmpty) then dimStyle
  else Style.default

/-- kayak_font CoordinateSystem. -/
inductive CoordinateSystem where
  | PositiveYDown
  | PositiveYUp

/-- A loaded font, abstracted to its measure function: coordinate system,
text, font size, line height and parent bounds give a measured size. -/
def KayakFont : Type :=
  CoordinateSystem → List Nat → ℚ → ℚ → ℚ × ℚ → ℚ × ℚ

/-- The context data one render pass reads: the resolved valid parent id,
the layout lookup, and the current state of the font asset binding. -/
structure RenderInputs where
  validParent : Option Nat
  layouts : Nat → Option (ℚ × ℚ)
  font : Option KayakFont

/-- The parent layout the probe can resolve: a valid parent must exist and
its layout lookup must succeed. -/
def parentLayoutOf (inp : RenderInputs) : Option (ℚ × ℚ) :=
  match inp.validParent with
  | none => none
  | some p => inp.layouts p

/-- The layout probe of text_box.rs lines 148-172: produces
(layout_size, parent_size, should_render). Missing parent or layout gives
zero geometry; a present layout with a missing font keeps the parent size
but zero text size; otherwise the font measures the value at size 14 and
line height 22 within the parent bounds. -/
def layoutProbe (inp : RenderInputs) (value : List Nat) :
    (ℚ × ℚ) × (ℚ × ℚ) × Bool :=
  match inp.validParent with
  | none => ((0, 0), (0, 0), false)
  | some p =>
    match inp.layouts p with
    | none => ((0, 0), (0, 0), false)
    | some (w, h) =>
      match inp.font with
      | none => ((0, 0), (w, h), false)
      | some font =>
        (font CoordinateSystem.PositiveYDown value 14 22 (w, h), (w, h), true)

/-- The value displayed by the Text node (text_box.rs lines 197-201): the
edited value, or the placeholder when the value is empty. -/
def displayedValue (value : List Nat) (placeholder : Option (List Nat)) :
    List Nat :=
  if value.isEmpty then placeholder.getD value else value

/-- The declarative render-tree nodes emitted by the rsx block. -/
inductive RenderNode where
  | background (styles : Style) (children : List RenderNode)
  | clip (children : List RenderNode)
  | text (content : List Nat) (size lineHeight : ℚ) (styles : Style)
  | ifNode (condition : Bool) (children : List RenderNode)
  | element (styles : Style)

/-- One render pass of the TextBox body (text_box.rs lines 148-220):
probe the layout, derive the styles and the displayed value, and emit
background→clip→text plus the If-gated caret element. -/
def textBoxRender (value : List Nat) (placeholder : Option (List Nat))
    (focused : Bool) (inp : RenderInputs) : List RenderNode :=
  let probe := layoutProbe inp value
  let layout_size := probe.1
  let should_render := probe.2.2
  [RenderNode.background background_styles
    [RenderNode.clip
      [RenderNode.text (displayedValue value placeholder) 14 22
        (text_styles value focused)]],
   RenderNode.ifNode (focused && should_render)
    [RenderNode.element (cursor_styles layout_size.1)]]

mutual

/-- Whether a node contains a rendered caret element, descending into If
children only when their condition holds. -/
def nodeHasCaret : RenderNode → Bool
  | RenderNode.background _ ch => listHasCaret ch
  | RenderNode.clip ch => listHasCaret ch
  | RenderNode.text _ _ _ _ => false
  | RenderNode.ifNode c ch => c && listHasCaret ch
  | RenderNode.element _ => true

/-- Whether any node of a list contains a rendered caret element. -/
def listHasCaret : List RenderNode → Bool
  | [] => false
  | n :: rest => nodeHasCaret n || listHasCaret rest

end

mutual

/-- The text contents rendered by a node, descending into If children only
when their condition holds. -/
def nodeTexts : RenderNode → List (List Nat)
  | RenderNode.background _ ch => listTexts ch
  | RenderNode.clip ch => listTexts ch
  | RenderNode.text content _ _ _ => [content]
  | RenderNode.ifNode c ch => if c then listTexts ch else []
  | RenderNode.element _ => []

/-- The text contents rendered by a list of nodes, in order. -/
def listTexts : List RenderNode → List (List Nat)
  | [] => []
  | n :: rest => nodeTexts n ++ listTexts rest

end

/-- TextBoxProps from text_box.rs lines 14-24, callbacks and children
abstracted to their presence. -/
structure TextBoxProps where
  disabled : Bool
  value : List Nat
  on_change : Option Unit
  placeholder : Option (List Nat)
  styles : Option Style
  children : Option Unit
  on_event : Option Unit
  focusable : Option Bool

/-- WidgetProps::get_focusable for TextBoxProps (text_box.rs lines 43-45):
Some(not disabled). -/
def TextBoxProps.get_focusable (p : TextBoxProps) : Option Bool :=
  some (!p.disabled)

/-- A character outside the control categories is neither 0x08 nor 0x7F:
both backspace code points are control characters. -/
theorem is_backspace_false_of_not_control (c : Nat)
    (hc : is_control c = false) : is_backspace c = false := by
  simp only [is_control, Bool.or_eq_false_iff, Bool.and_eq_false_iff,
    decide_eq_false_iff_not, not_le] at hc
  simp only [is_backspace, Bool.or_eq_false_iff, beq_eq_false_iff_ne, ne_eq]
  omega

/-- A focused non-control character is appended and one ChangeEvent with
the new value is emitted when the callback is available. -/
theorem onCharInput_printable (avail : Bool) (v : List Nat) (c : Nat)
    (hc : is_control c = false) :
    onCharInput true avail v c =
      some (v ++ [c], if avail then [v ++ [c]] else []) := by
  have hb : is_backspace c = false := is_backspace_false_of_not_control c hc
  simp [onCharInput, hb, hc]

/-- The dim placeholder color block differs from the default style. -/
theorem dimStyle_ne_default : dimStyle ≠ Style.default := by decide

/-- Claim C1 counterexample: a focused newline (a control character that is
not backspace) leaves the value unchanged but an on_change ChangeEvent is
emitted, so the claim that no ChangeEvent is delivered is false. -/
theorem control_char_notifies_counterexample :
    onCharInput true true [104] 10 = some ([104], [[104]]) ∧
      ([[104]] : List (List Nat)) ≠ [] := ⟨rfl, by decide⟩

/-- Claim C1 (amended): a focused CharInput whose character is a control
character other than backspace leaves the value unchanged, yet a
ChangeEvent carrying the unchanged value is still delivered whenever the
on_change callback is registered and its write guard is acquired. -/
theorem control_char_keeps_value_but_notifies (avail : Bool) (v : List Nat)
    (c : Nat) (hc : is_control c = true) (hb : is_backspace c = false) :
    onCharInput true avail v c = some (v, if avail then [v] else []) := by
  simp [onCharInput, hc, hb]

/-- Witness for the amended claim C1 at the newline character 10. -/
theorem control_char_keeps_value_but_notifies_witness :
    is_control 10 = true ∧ is_backspace 10 = false ∧
      onCharInput true true [106] 10 = some ([106], [[106]]) :=
  ⟨by decide, by decide,
    control_char_keeps_value_but_notifies true [106] 10 (by decide) (by decide)⟩

/-- Claim C2: the code is wrong here. On a focused backspace with a value
whose last character is multi-byte (for example U+00E9), the call
String::truncate(len - 1) cuts at a byte index inside that character and
panics, instead of removing the last whole character as specified. -/
theorem backspace_multibyte_truncate_panics :
    onCharInput true true [233] 8 = none := rfl

/-- Claim C3: the render tree contains the caret element exactly when the
focus flag is set and the measurement succeeded, that is a valid parent
was found, its layout resolved, and the font asset was loaded. -/
theorem caret_iff_focused_and_measured (value : List Nat)
    (placeholder : Option (List Nat)) (focused : Bool) (inp : RenderInputs) :
    listHasCaret (textBoxRender value placeholder focused inp) = true ↔
      (focused = true ∧ ∃ p wh f, inp.validParent = some p ∧
        inp.layouts p = some wh ∧ inp.font = some f) := by
  obtain ⟨vp, lays, fnt⟩ := inp
  cases vp with
  | none => simp [textBoxRender, listHasCaret, nodeHasCaret, layoutProbe]
  | some p =>
    cases hl : lays p with
    | none =>
      simp [textBoxRender, listHasCaret, nodeHasCaret, layoutProbe, hl]
    | some wh =>
      obtain ⟨w, h⟩ := wh
      cases fnt with
      | none =>
        simp [textBoxRender, listHasCaret, nodeHasCaret, layoutProbe, hl]
      | some f =>
        cases focused <;>
          simp [textBoxRender, listHasCaret, nodeHasCaret, layoutProbe, hl]

/-- Claim C4: delivering a focused sequence of printable (non-control)
characters appends them in arrival order, and the k-th ChangeEvent carries
the value after the first k appends. -/
theorem printable_sequence_appends (v cs : List Nat)
    (h : ∀ c ∈ cs, is_control c = false) :
    processEvents true ⟨v, true⟩ (cs.map EventType.charInput) =
      some (⟨v ++ cs, true⟩,
        (List.range cs.length).map (fun k => v ++ cs.take (k + 1))) := by
  induction cs generalizing v with
  | nil => simp [processEvents]
  | cons c rest ih =>
    have hc : is_control c = false := h c (List.mem_cons_self c rest)
    have hcs : ∀ x ∈ rest, is_control x = false := fun x hx =>
      h x (List.mem_cons_of_mem c hx)
    have hstep : on_event true ⟨v, true⟩ (EventType.charInput c) =
        some (⟨v ++ [c], true⟩, [v ++ [c]]) := by
      simp [on_event, onCharInput_printable true v c hc]
    simp only [List.map_cons, processEvents, hstep, ih (v ++ [c]) hcs]
    simp [List.range_succ_eq_map, List.map_map, Function.comp,
      List.take_succ_cons, List.append_assoc]

/-- Witness for claim C4: from the empty value, typing 'h' (104) then 'i'
(105) emits ChangeEvents "h" and "hi" and ends with value "hi". -/
theorem printable_sequence_appends_witness :
    (∀ c ∈ [104, 105], is_control c = false) ∧
      processEvents true ⟨[], true⟩
          [EventType.charInput 104, EventType.charInput 105] =
        some (⟨[104, 105], true⟩, [[104], [104, 105]]) :=
  ⟨by decide, by simpa using printable_sequence_appends [] [104, 105] (by decide)⟩

/-- Claim C5: a focused backspace on the empty value leaves it empty but a
ChangeEvent carrying the empty string is still constructed and delivered
to the available on_change callback. -/
theorem backspace_on_empty_still_notifies (c : Nat)
    (hb : is_backspace c = true) :
    onCharInput true true [] c = some ([], [[]]) := by
  simp [onCharInput, hb]

/-- Witness for claim C5 at the backspace character 0x08. -/
theorem backspace_on_empty_still_notifies_witness :
    is_backspace 8 = true ∧ onCharInput true true [] 8 = some ([], [[]]) :=
  ⟨by decide, backspace_on_empty_still_notifies 8 (by decide)⟩

/-- Claim C6: any CharInput delivered while unfocused is dropped: value and
focus flag unchanged, no ChangeEvent, whatever the character and whether or
not a callback is available. -/
theorem unfocused_charInput_drops_event (avail : Bool) (v : List Nat)
    (c : Nat) :
    on_event avail ⟨v, false⟩ (EventType.charInput c) =
      some (⟨v, false⟩, []) := rfl

/-- Claim C7 counterexample: with an empty value and the non-empty
placeholder "hi", the effective displayed text is non-empty, yet the text
style is the dim color block rather than the normal default, so the claim
that the color follows the effective text is false. -/
theorem dim_color_despite_placeholder_counterexample :
    displayedValue [] (some [104, 105]) ≠ [] ∧
      text_styles [] false = dimStyle ∧ dimStyle ≠ Style.default := by
  exact ⟨by decide, rfl, by decide⟩

/-- Claim C7 (amended): the text style is the dim color block exactly when
the edited value is empty, and the normal default exactly when the value is
non-empty, independent of the placeholder and of focus. -/
theorem text_color_dim_iff_value_empty (value : List Nat) (focused : Bool) :
    (text_styles value focused = dimStyle ↔ value = []) ∧
      (text_styles value focused = Style.default ↔ value ≠ []) := by
  cases value with
  | nil => simp [text_styles, dimStyle_ne_default]
  | cons a l => simp [text_styles, (dimStyle_ne_default).symm]

/-- Claim C8: the layout probe degrades exactly as specified: no resolvable
parent layout gives zero text and parent geometry with measurement
unavailable; a resolved parent layout with a missing font keeps the parent
geometry with zero text size and measurement unavailable; and with both
present the font measures the value and measurement is available. -/
theorem layoutProbe_degraded_cases (inp : RenderInputs) (v : List Nat) :
    (parentLayoutOf inp = none →
      layoutProbe inp v = ((0, 0), (0, 0), false)) ∧
    (∀ wh, parentLayoutOf inp = some wh → inp.font = none →
      layoutProbe inp v = ((0, 0), wh, false)) ∧
    (∀ wh f, parentLayoutOf inp = some wh → inp.font = some f →
      layoutProbe inp v =
        (f CoordinateSystem.PositiveYDown v 14 22 wh, wh, true)) := by
  obtain ⟨vp, lays, fnt⟩ := inp
  cases vp with
  | none => simp [parentLayoutOf, layoutProbe]
  | some p =>
    cases hl : lays p with
    | none => simp [parentLayoutOf, layoutProbe, hl]
    | some wh =>
      obtain ⟨w, h⟩ := wh
      cases fnt with
      | none => simp [parentLayoutOf, layoutProbe, hl]
      | some f => simp [parentLayoutOf, layoutProbe, hl]

/-- Witness for claim C8: with no valid parent, the probe returns zero
geometry and measurement unavailable. -/
theorem layoutProbe_degraded_cases_witness :
    parentLayoutOf ⟨none, fun _ => none, none⟩ = none ∧
      layoutProbe ⟨none, fun _ => none, none⟩ [] =
        ((0, 0), (0, 0), false) :=
  ⟨rfl, (layoutProbe_degraded_cases ⟨none, fun _ => none, none⟩ []).1 rfl⟩

/-- Claim C9: the rendered text content is the value when non-empty, else
the placeholder when supplied, else empty, for every focus flag and every
layout and font situation. -/
theorem text_content_is_value_or_placeholder (value : List Nat)
    (placeholder : Option (List Nat)) (focused : Bool) (inp : RenderInputs) :
    listTexts (textBoxRender value placeholder focused inp) =
      [if value = [] then placeholder.getD [] else value] := by
  cases value with
  | nil => simp [textBoxRender, listTexts, nodeTexts, displayedValue]
  | cons a l => simp [textBoxRender, listTexts, nodeTexts, displayedValue]

/-- Claim C10: get_focusable returns Some(not disabled) whatever the
focusable prop field holds, so an explicitly supplied focusable value is
ignored. -/
theorem get_focusable_ignores_focusable_prop (p : TextBoxProps)
    (b : Option Bool) :
    TextBoxProps.get_focusable
      ⟨p.disabled, p.value, p.on_change, p.placeholder, p.styles,
        p.children, p.on_event, b⟩ = some (!p.disabled) := rfl

end TextBoxSpec
